import Mathlib

/-!
Verification of `dangerzone/gui/common.py` (class `GuiCommon` and the `Alert`
dialog): a shallow embedding of the viewer registry build, the viewer launch
path, and the two privilege-escalation flows, together with theorems settling
the specification claims.

Modelling conventions:
* The external collaborators (settings store, `grp.getgrnam`, `getpass`,
  `Alert(...).launch()`, `subprocess.run(...).returncode`, `is_docker_ready`,
  `shlex.split`, `os.listdir`, `DesktopEntry`) are inputs to the embedded
  functions: each embedded function is a pure function of the values those
  collaborators would return.
* Python exceptions are modelled with `Except` / `Option`: `grp.getgrnam`
  raising is `none`; `os.listdir` and `DesktopEntry(...)` raising is
  `Except.error` carrying the exception class.
* Side effects are traced in the result records: the message of every
  `Alert(...).launch()` in order, every `subprocess` argv, and the number of
  `settings.save()` calls.
-/

/-- The two settings keys this module reads or writes
(`open_app`, `linux_prefers_typing_password`); `none` models an absent or
non-matching value in the store. -/
structure Settings where
  open_app : Option String
  linux_prefers_typing_password : Option Bool
deriving DecidableEq, Repr

/-- Qt return code of `QDialog.Accepted` (the Ok button;
`Alert.clicked_ok` calls `self.done(QtWidgets.QDialog.Accepted)`). -/
def QDialog_Accepted : Nat := 1

/-- Qt return code of `QDialog.Rejected` (Cancel / window close;
`Alert.clicked_cancel` calls `self.done(QtWidgets.QDialog.Rejected)`). -/
def QDialog_Rejected : Nat := 0

/-- Return code of the extra button: `Alert.clicked_extra` calls
`self.done(2)`. -/
def AlertExtraCode : Nat := 2

/-- The fields of the `grp.getgrnam` result that the code uses: only
`gr_mem`, the member list. -/
structure GroupInfo where
  gr_mem : List String
deriving DecidableEq, Repr

/-- Question message of the group-membership dialog (source line 161). -/
def msgGroupQuestion : String :=
  "<b>Dangerzone requires Docker</b><br><br>In order to use Docker, your user must be in the \x27docker\x27 group or you\x27ll need to type your password each time you run dangerzone.<br><br><b>Adding your user to the \x27docker\x27 group is more convenient but less secure</b>, and will require just typing your password once. Which do you prefer?"

/-- Notice shown when the usermod helper succeeds (source line 191). -/
def msgLogOutNotice : String :=
  "Great! Now you must log out of your computer and log back in, and then you can use Dangerzone."

/-- Notice shown when the usermod helper fails (source line 194). -/
def msgAddGroupFailed : String :=
  "Failed to add your user to the \x27docker\x27 group, quitting."

/-- Question message of the service-activation dialog (source line 206). -/
def msgServiceQuestion : String :=
  "<b>Dangerzone requires Docker</b><br><br>Docker should be installed, but it looks like it\x27s not running in the background.<br><br>Click Ok to try starting the docker service. You will have to type your login password."

/-- Notice shown when docker is still not ready after a successful restart
(source line 224). -/
def msgServiceStillNot : String :=
  "Restarting docker appeared to work, but the service still isn\x27t responding, quitting."

/-- Notice shown when the service helper exits nonzero (source line 227). -/
def msgServiceFailed : String :=
  "Failed to start the docker service, quitting."

/-- Result of one run of `ensure_docker_group_preference`: the returned
boolean, the settings store after the run, how many times `settings.save()`
was called, the messages of every `Alert` launched (in order), and the argv
of every `subprocess.run` call. -/
structure GroupFlowResult where
  result : Bool
  settings : Settings
  saveCalls : Nat
  dialogs : List String
  helperCalls : List (List String)
deriving DecidableEq, Repr

/-- Embedding of `GuiCommon.ensure_docker_group_preference` (source lines
145-202). `grp_docker` is the `grp.getgrnam("docker")` outcome (`none` =
the lookup raised, swallowed by the bare `except`); `username` is
`getpass.getuser()`; `dialogReturn` is what `Alert(...).launch()` returns
for the question dialog; `usermodReturncode` is the exit code of the
`pkexec usermod` helper (consulted only on the extra-button path). -/
def ensure_docker_group_preference (settings : Settings) (grp_docker : Option GroupInfo)
    (username : String) (dialogReturn : Nat) (usermodReturncode : Int) : GroupFlowResult :=
  if settings.linux_prefers_typing_password = some true then
    ⟨true, settings, 0, [], []⟩
  else
    match grp_docker with
    | none => ⟨true, settings, 0, [], []⟩
    | some groupinfo =>
      if username ∈ groupinfo.gr_mem then
        ⟨true, settings, 0, [], []⟩
      else
        if dialogReturn = QDialog_Accepted then
          ⟨true, { settings with linux_prefers_typing_password := some true }, 1,
            [msgGroupQuestion], []⟩
        else if dialogReturn = 2 then
          let settings2 := { settings with linux_prefers_typing_password := some false }
          let usermodArgs :=
            ["/usr/bin/pkexec", "/usr/sbin/usermod", "-a", "-G", "docker", username]
          if usermodReturncode = 0 then
            ⟨false, settings2, 1, [msgGroupQuestion, msgLogOutNotice], [usermodArgs]⟩
          else
            ⟨false, settings2, 1, [msgGroupQuestion, msgAddGroupFailed], [usermodArgs]⟩
        else
          ⟨false, settings, 0, [msgGroupQuestion], []⟩

/-- Result of one run of `ensure_docker_service_is_started`: the returned
boolean, the messages of every `Alert` launched (in order), and the argv of
every `subprocess.run` call. -/
structure ServiceFlowResult where
  result : Bool
  dialogs : List String
  helperCalls : List (List String)
deriving DecidableEq, Repr

/-- Embedding of `GuiCommon.ensure_docker_service_is_started` (source lines
204-232). `ready1` and `ready2` are the first and second
`is_docker_ready(...)` answers (the second is consulted only after a
successful helper run); `dialogReturn` is the return code of the question dialog; `scriptPath` is `get_resource_path("enable_docker_service.sh")`;
`helperReturncode` is the exit code of the `pkexec` helper. -/
def ensure_docker_service_is_started (ready1 : Bool) (dialogReturn : Nat)
    (scriptPath : String) (helperReturncode : Int) (ready2 : Bool) : ServiceFlowResult :=
  if ready1 then
    ⟨true, [], []⟩
  else
    if dialogReturn = QDialog_Accepted then
      let call := ["/usr/bin/pkexec", scriptPath]
      if helperReturncode = 0 then
        if ready2 then
          ⟨true, [msgServiceQuestion], [call]⟩
        else
          ⟨false, [msgServiceQuestion, msgServiceStillNot], [call]⟩
      else
        ⟨false, [msgServiceQuestion, msgServiceFailed], [call]⟩
    else
      ⟨false, [msgServiceQuestion], []⟩

/-- Python exception classes distinguished by the registry build:
`FileNotFoundError` (the only class caught by the `except` clause in
`_find_pdf_viewers`), the `ParsingError` a malformed `.desktop` entry
raises, and any other exception class. -/
inductive PyExn
  | fileNotFound
  | parsingError
  | otherError
deriving DecidableEq, Repr

/-- The fields of a parsed `DesktopEntry` that the code uses:
`getName()`, `getMimeTypes()`, `getExec()`. -/
structure DesktopEntryData where
  getName : String
  getMimeTypes : List String
  getExec : String
deriving Repr

/-- One filename returned by `os.listdir`, together with the outcome of
constructing `DesktopEntry(full_filename)` for it (`Except.error` = the
constructor raised; the outcome is consulted only for `.desktop` files). -/
structure DirEntry where
  filename : String
  entry : Except PyExn DesktopEntryData
deriving Repr

/-- A registry snapshot: Python dict from display name to launch
descriptor, modelled as an association list in insertion order. -/
abbrev ViewerDict := List (String × String)

/-- Python dict assignment `d[k] = v`: update in place if the key exists
(keeping its position), else append. -/
def dictInsert (d : ViewerDict) (k v : String) : ViewerDict :=
  if d.any fun p => p.1 == k then
    d.map fun p => if p.1 == k then (k, v) else p
  else
    d ++ [(k, v)]

/-- Python dict lookup `d[k]` / `k in d`. -/
def dictLookup (d : ViewerDict) (k : String) : Option String :=
  match d.find? fun p => p.1 == k with
  | some p => some p.2
  | none => none

/-- Index of the last `.` in a character list, counting from `start`. -/
def lastDotIdxAux : List Char → Nat → Option Nat
  | [], _ => none
  | c :: cs, i =>
    match lastDotIdxAux cs (i + 1) with
    | some j => some j
    | none => if c = '.' then some i else none

/-- Test `os.path.splitext(filename)[1] == ".desktop"` for a plain file
name: the extension starts at the last dot, except that leading dots of the name
never begin an extension (`splitext(".desktop") == (".desktop", "")`). -/
def splitextIsDesktop (filename : String) : Bool :=
  match lastDotIdxAux filename.data 0 with
  | none => false
  | some i =>
    ((filename.data.take i).any fun c => c != '.') &&
      filename.data.drop i == ".desktop".data

/-- Inner loop of the Linux branch of `_find_pdf_viewers` (source lines
126-138) over one directory listing: processes entries in order,
accumulating dict assignments, and stops at the first exception raised by
`DesktopEntry(...)`, returning it alongside the dict as mutated so far. -/
def processDirEntries : List DirEntry → ViewerDict → ViewerDict × Option PyExn
  | [], acc => (acc, none)
  | e :: rest, acc =>
    if splitextIsDesktop e.filename then
      match e.entry with
      | Except.error exn => (acc, some exn)
      | Except.ok d =>
        if "application/pdf" ∈ d.getMimeTypes ∧ d.getName ≠ "dangerzone" then
          processDirEntries rest (dictInsert acc d.getName d.getExec)
        else
          processDirEntries rest acc
    else
      processDirEntries rest acc

/-- One iteration of the outer loop of the Linux branch: the whole
`try: for filename in os.listdir(search_path): ... except
FileNotFoundError: pass` block. Only `FileNotFoundError` is caught —
whether raised by `os.listdir` or from inside the loop — keeping the dict
as mutated so far; any other exception propagates. -/
def processSearchPath (acc : ViewerDict) (listing : Except PyExn (List DirEntry)) :
    Except PyExn ViewerDict :=
  match listing with
  | Except.error PyExn.fileNotFound => Except.ok acc
  | Except.error e => Except.error e
  | Except.ok entries =>
    match processDirEntries entries acc with
    | (acc2, none) => Except.ok acc2
    | (acc2, some PyExn.fileNotFound) => Except.ok acc2
    | (_, some e) => Except.error e

/-- Linux branch of `GuiCommon._find_pdf_viewers` (source lines 118-143):
fold over the three search paths starting from the empty dict. Each
element of `dirs` is the `os.listdir` outcome for one search path. -/
def find_pdf_viewers_linux_from : List (Except PyExn (List DirEntry)) → ViewerDict →
    Except PyExn ViewerDict
  | [], acc => Except.ok acc
  | dir :: dirs, acc =>
    match processSearchPath acc dir with
    | Except.ok acc2 => find_pdf_viewers_linux_from dirs acc2
    | Except.error e => Except.error e

/-- Linux registry build started from the empty dict (`pdf_viewers = {}`). -/
def find_pdf_viewers_linux (dirs : List (Except PyExn (List DirEntry))) :
    Except PyExn ViewerDict :=
  find_pdf_viewers_linux_from dirs []

/-- One bundle identifier returned by
`LSCopyAllRoleHandlersForContentType`, with the data the Darwin branch
reads for it: the resolved application path (`none` = `res[0] is None`),
whether `Contents/Info.plist` exists, and `plist_dict.get("CFBundleName")`
(`none` = key absent). -/
structure DarwinCandidate where
  bundle_identifier : String
  app_path : Option String
  info_plist_exists : Bool
  cfBundleName : Option String
deriving Repr

/-- Darwin branch of `GuiCommon._find_pdf_viewers` (source lines 85-116):
skips candidates with no resolved path or no `Info.plist`, and keeps a
candidate only when `plist_dict.get("CFBundleName")` is truthy (present
and nonempty) and differs from `"Dangerzone"`. -/
def find_pdf_viewers_darwin (cands : List DarwinCandidate) : ViewerDict :=
  cands.foldl
    (fun acc c =>
      match c.app_path with
      | none => acc
      | some _ =>
        if c.info_plist_exists then
          match c.cfBundleName with
          | some name =>
            if name ≠ "" ∧ name ≠ "Dangerzone" then
              dictInsert acc name c.bundle_identifier
            else
              acc
          | none => acc
        else
          acc)
    []

/-- Placeholder test of the Linux launch path (source lines 69-74):
`args[i] == "%f" or args[i] == "%F" or args[i] == "%u" or args[i] == "%U"`. -/
def isPlaceholder (a : String) : Bool :=
  a == "%f" || a == "%F" || a == "%u" || a == "%U"

/-- The `for i in range(len(args)): if <placeholder>: args[i] = filename`
loop of the Linux launch path (source lines 68-75): each index is visited
once and mutated in place, so the loop is elementwise substitution. -/
def substPlaceholders : List String → String → List String
  | [], _ => []
  | a :: rest, filename =>
    (if isPlaceholder a then filename else a) :: substPlaceholders rest filename

/-- Effects of one `open_pdf_viewer` run: the argv echoed to the console
(the printed line is the `pipes.quote`-joined argv, recorded here as the
argv itself), the argv of each blocking `subprocess.run`, and the argv of
each detached `subprocess.Popen`. -/
structure LaunchEffects where
  printedCmds : List (List String)
  runCalls : List (List String)
  popenCalls : List (List String)
deriving DecidableEq, Repr

/-- Embedding of `GuiCommon.open_pdf_viewer` (source lines 48-80).
`platformSystem` is `platform.system()`; `tokenize` is `shlex.split`
(external collaborator); `pdf_viewers` is the registry snapshot. Nothing
happens unless `settings.get("open_app")` is a key of the registry; then
the Darwin branch runs `open -b <bundle> <filename>` synchronously and the
Linux branch spawns the placeholder-substituted template detached; on any
other platform nothing happens. -/
def open_pdf_viewer (platformSystem : String) (tokenize : String → List String)
    (settings : Settings) (pdf_viewers : ViewerDict) (filename : String) : LaunchEffects :=
  match settings.open_app with
  | none => ⟨[], [], []⟩
  | some app =>
    match dictLookup pdf_viewers app with
    | none => ⟨[], [], []⟩
    | some descriptor =>
      if platformSystem = "Darwin" then
        let args := ["open", "-b", descriptor, filename]
        ⟨[args], [args], []⟩
      else if platformSystem = "Linux" then
        let args := substPlaceholders (tokenize descriptor) filename
        ⟨[args], [], [args]⟩
      else
        ⟨[], [], []⟩

/-! Helper lemmas: the alert messages are pairwise distinct strings. -/

theorem msgServiceFailed_ne_question : msgServiceFailed ≠ msgServiceQuestion := by decide

theorem msgServiceStillNot_ne_question : msgServiceStillNot ≠ msgServiceQuestion := by decide

theorem msgServiceFailed_ne_stillNot : msgServiceFailed ≠ msgServiceStillNot := by decide

theorem msgServiceStillNot_ne_failed : msgServiceStillNot ≠ msgServiceFailed := by decide

/-- C6: if the settings record `linux_prefers_typing_password` as `true`,
`ensure_docker_group_preference` returns `true` immediately: no dialog is
launched, no helper is invoked and settings are untouched — and the whole
run is independent of the group database (`g`), the username, the dialog
and the helper, since they are arbitrary here. -/
theorem group_flow_prefers_short_circuit (s : Settings) (g : Option GroupInfo) (u : String)
    (d : Nat) (e : Int) (h : s.linux_prefers_typing_password = some true) :
    ensure_docker_group_preference s g u d e = ⟨true, s, 0, [], []⟩ := by
  unfold ensure_docker_group_preference
  rw [if_pos h]

theorem group_flow_prefers_short_circuit_witness :
    (Settings.mk none (some true)).linux_prefers_typing_password = some true ∧
    ensure_docker_group_preference ⟨none, some true⟩ (some ⟨["alice"]⟩) "bob" 2 5 =
      ⟨true, ⟨none, some true⟩, 0, [], []⟩ :=
  ⟨rfl, group_flow_prefers_short_circuit ⟨none, some true⟩ (some ⟨["alice"]⟩) "bob" 2 5 rfl⟩

/-- C7: if `grp.getgrnam("docker")` raises (the group does not exist),
`ensure_docker_group_preference` returns `true` with no dialog and no
helper call: the bare `except` swallows the error and nothing of it is
surfaced in the result. -/
theorem group_flow_group_absent (s : Settings) (u : String) (d : Nat) (e : Int) :
    ensure_docker_group_preference s none u d e = ⟨true, s, 0, [], []⟩ := by
  unfold ensure_docker_group_preference
  split
  · rfl
  · rfl

/-- C1 (counterexample): with the user not in the docker group, dialog
outcome 2 (the secondary button) and helper exit code 0, the function sets
and saves the preference to `false` and shows the log-out notice — but it
returns `false`, not `true` as the claim states. -/
theorem group_flow_secondary_cex :
    ("user" ∉ (GroupInfo.mk []).gr_mem) ∧
    ensure_docker_group_preference ⟨none, none⟩ (some ⟨[]⟩) "user" 2 0 =
      ⟨false, ⟨none, some false⟩, 1, [msgGroupQuestion, msgLogOutNotice],
        [["/usr/bin/pkexec", "/usr/sbin/usermod", "-a", "-G", "docker", "user"]]⟩ :=
  ⟨by decide, rfl⟩

/-- C1 (amended): when the user is not in the docker group, the dialog
outcome is the secondary action (code 2) and the privileged add-to-group
helper exits with code 0, the settings key `linux_prefers_typing_password`
is set to `false` and saved, the "log out and back in" notice is shown,
and the function returns `false`. -/
theorem group_flow_secondary_success (s : Settings) (gi : GroupInfo) (u : String)
    (h1 : s.linux_prefers_typing_password ≠ some true)
    (h2 : u ∉ gi.gr_mem) :
    ensure_docker_group_preference s (some gi) u 2 0 =
      ⟨false, { s with linux_prefers_typing_password := some false }, 1,
        [msgGroupQuestion, msgLogOutNotice],
        [["/usr/bin/pkexec", "/usr/sbin/usermod", "-a", "-G", "docker", u]]⟩ := by
  simp [ensure_docker_group_preference, h1, h2, QDialog_Accepted]

theorem group_flow_secondary_success_witness :
    ensure_docker_group_preference ⟨none, none⟩ (some ⟨[]⟩) "user" 2 0 =
      ⟨false, ⟨none, some false⟩, 1, [msgGroupQuestion, msgLogOutNotice],
        [["/usr/bin/pkexec", "/usr/sbin/usermod", "-a", "-G", "docker", "user"]]⟩ :=
  group_flow_secondary_success ⟨none, none⟩ ⟨[]⟩ "user" (by decide) (by decide)

/-- C9: `ensure_docker_group_preference` writes to settings only on the
two paths where the question dialog was shown and returned Accepted or the
secondary code 2 (writing `some true` resp. `some false` and saving once);
on every other path — short-circuit, group absent, already a member,
dialog rejected — the settings value is returned unchanged and
`settings.save()` is never called. -/
theorem group_flow_settings_frame (s : Settings) (g : Option GroupInfo) (u : String)
    (d : Nat) (e : Int) :
    ((ensure_docker_group_preference s g u d e).settings = s ∧
      (ensure_docker_group_preference s g u d e).saveCalls = 0) ∨
    (msgGroupQuestion ∈ (ensure_docker_group_preference s g u d e).dialogs ∧
      (d = QDialog_Accepted ∨ d = 2) ∧
      (ensure_docker_group_preference s g u d e).saveCalls = 1 ∧
      (ensure_docker_group_preference s g u d e).settings =
        { s with linux_prefers_typing_password := some (d == QDialog_Accepted) }) := by
  unfold ensure_docker_group_preference
  by_cases h1 : s.linux_prefers_typing_password = some true
  · rw [if_pos h1]
    exact Or.inl ⟨rfl, rfl⟩
  · rw [if_neg h1]
    cases g with
    | none => exact Or.inl ⟨rfl, rfl⟩
    | some gi =>
      dsimp only
      by_cases h2 : u ∈ gi.gr_mem
      · rw [if_pos h2]
        exact Or.inl ⟨rfl, rfl⟩
      · rw [if_neg h2]
        by_cases h3 : d = QDialog_Accepted
        · rw [if_pos h3]
          refine Or.inr ⟨List.Mem.head _, Or.inl h3, rfl, ?_⟩
          subst h3
          simp
        · rw [if_neg h3]
          by_cases h4 : d = 2
          · rw [if_pos h4]
            subst h4
            by_cases h5 : e = 0
            · rw [if_pos h5]
              exact Or.inr ⟨List.Mem.head _, Or.inr rfl, rfl, by simp [QDialog_Accepted]⟩
            · rw [if_neg h5]
              exact Or.inr ⟨List.Mem.head _, Or.inr rfl, rfl, by simp [QDialog_Accepted]⟩
          · rw [if_neg h4]
            exact Or.inl ⟨rfl, rfl⟩

/-- C2: `ensure_docker_service_is_started` returns `true` exactly when
docker was ready on the first check, or it was not ready, the dialog was
accepted, the helper exited 0 and the re-check reported ready; the
"failed to start" notice is shown exactly on the helper-failure path and
the still-not-responding notice exactly on the still-not-ready path. -/
theorem service_flow_correct (r1 : Bool) (d : Nat) (sp : String) (e : Int) (r2 : Bool) :
    ((ensure_docker_service_is_started r1 d sp e r2).result = true ↔
      (r1 = true ∨ (r1 = false ∧ d = QDialog_Accepted ∧ e = 0 ∧ r2 = true))) ∧
    (msgServiceFailed ∈ (ensure_docker_service_is_started r1 d sp e r2).dialogs ↔
      (r1 = false ∧ d = QDialog_Accepted ∧ ¬e = 0)) ∧
    (msgServiceStillNot ∈ (ensure_docker_service_is_started r1 d sp e r2).dialogs ↔
      (r1 = false ∧ d = QDialog_Accepted ∧ e = 0 ∧ r2 = false)) := by
  cases r1 with
  | true =>
    simp [ensure_docker_service_is_started]
  | false =>
    by_cases h3 : d = QDialog_Accepted
    · by_cases h5 : e = 0
      · cases r2 <;>
          simp [ensure_docker_service_is_started, h3, h5, msgServiceFailed_ne_question,
            msgServiceStillNot_ne_question, msgServiceFailed_ne_stillNot,
            msgServiceStillNot_ne_failed]
      · cases r2 <;>
          simp [ensure_docker_service_is_started, h3, h5, msgServiceFailed_ne_question,
            msgServiceStillNot_ne_question, msgServiceFailed_ne_stillNot,
            msgServiceStillNot_ne_failed]
    · simp [ensure_docker_service_is_started, h3, msgServiceFailed_ne_question,
        msgServiceStillNot_ne_question]

/-- C8: when the stored viewer name is not a key of the registry snapshot
(also when no viewer name is stored at all), `open_pdf_viewer` does
nothing: no command is printed, no process is run or spawned. The
embedded function touches no other state, so nothing else can change. -/
theorem open_pdf_viewer_unknown_noop (ps : String) (tok : String → List String)
    (s : Settings) (viewers : ViewerDict) (fn : String)
    (h : ∀ app, s.open_app = some app → dictLookup viewers app = none) :
    open_pdf_viewer ps tok s viewers fn = ⟨[], [], []⟩ := by
  unfold open_pdf_viewer
  cases hs : s.open_app with
  | none => rfl
  | some app =>
    dsimp only
    rw [h app hs]

theorem open_pdf_viewer_unknown_noop_witness :
    open_pdf_viewer "Linux" (fun c => [c]) ⟨some "Okular", none⟩ [("Evince", "evince %f")]
      "doc.pdf" = ⟨[], [], []⟩ :=
  open_pdf_viewer_unknown_noop "Linux" (fun c => [c]) ⟨some "Okular", none⟩
    [("Evince", "evince %f")] "doc.pdf"
    (fun app ha => by injection ha with h; subst h; rfl)

/-- C10: on a platform that is neither `"Darwin"` nor `"Linux"`,
`open_pdf_viewer` does nothing for every file path, even when the stored
viewer name is a key of the registry: no command is printed and no process
is run or spawned. -/
theorem open_pdf_viewer_other_platform_noop (ps : String) (tok : String → List String)
    (s : Settings) (viewers : ViewerDict) (fn : String)
    (h1 : ps ≠ "Darwin") (h2 : ps ≠ "Linux") :
    open_pdf_viewer ps tok s viewers fn = ⟨[], [], []⟩ := by
  unfold open_pdf_viewer
  cases s.open_app with
  | none => rfl
  | some app =>
    dsimp only
    cases dictLookup viewers app with
    | none => rfl
    | some descriptor =>
      dsimp only
      rw [if_neg h1, if_neg h2]

theorem open_pdf_viewer_other_platform_noop_witness :
    dictLookup [("Evince", "evince %f")] "Evince" = some "evince %f" ∧
    open_pdf_viewer "Windows" (fun c => [c]) ⟨some "Evince", none⟩ [("Evince", "evince %f")]
      "doc.pdf" = ⟨[], [], []⟩ :=
  ⟨rfl, open_pdf_viewer_other_platform_noop "Windows" (fun c => [c]) ⟨some "Evince", none⟩
    [("Evince", "evince %f")] "doc.pdf" (by decide) (by decide)⟩

/-! Helper lemmas on placeholder substitution. -/

theorem substPlaceholders_length (args : List String) (fn : String) :
    (substPlaceholders args fn).length = args.length := by
  induction args with
  | nil => rfl
  | cons a rest ih => simp [substPlaceholders, ih]

theorem substPlaceholders_get? (args : List String) (fn : String) (j : Nat) :
    (substPlaceholders args fn).get? j =
      (args.get? j).map fun a => if isPlaceholder a then fn else a := by
  induction args generalizing j with
  | nil => cases j <;> rfl
  | cons a rest ih =>
    cases j with
    | zero => rfl
    | succ n => exact ih n

/-- C3 (counterexample): the token list `["foo", "%f"]` contains exactly
one placeholder token, at index 1, yet substituting the file path `"foo"`
yields `["foo", "foo"]`: the file path also appears at index 0, where the
template token was not a placeholder. -/
theorem placeholder_subst_cex :
    (List.filter isPlaceholder ["foo", "%f"]).length = 1 ∧
    isPlaceholder "foo" = false ∧
    substPlaceholders ["foo", "%f"] "foo" = ["foo", "foo"] := by decide

/-- C3 (amended): the Linux launch path substitutes elementwise — the
result has the length of the template and holds, at each index, the file path
when the template token there is one of `%f`/`%F`/`%u`/`%U` and the
unchanged token otherwise; and when the template holds exactly one
placeholder, at index `i`, and no other token equals the file path, the
file path appears at index `i` and nowhere else. -/
theorem placeholder_subst_unique (args : List String) (fn : String) (i : Nat)
    (hp : (args.get? i).map isPlaceholder = some true)
    (hothers : ∀ j, j < args.length → j ≠ i →
      (args.get? j).map isPlaceholder = some false ∧ args.get? j ≠ some fn) :
    (substPlaceholders args fn).length = args.length ∧
    (∀ j, (substPlaceholders args fn).get? j =
      (args.get? j).map fun a => if isPlaceholder a then fn else a) ∧
    (∀ j, ((substPlaceholders args fn).get? j = some fn ↔ j = i)) := by
  refine ⟨substPlaceholders_length args fn, fun j => substPlaceholders_get? args fn j,
    fun j => ?_⟩
  rw [substPlaceholders_get? args fn j]
  by_cases hji : j = i
  · subst hji
    cases ha : args.get? j with
    | none => rw [ha] at hp; cases hp
    | some a =>
      rw [ha] at hp
      simp only [Option.map_some'] at hp
      injection hp with hp
      simp [hp]
  · constructor
    · intro heq
      exfalso
      by_cases hj : j < args.length
      · obtain ⟨hpl, hne⟩ := hothers j hj hji
        cases ha : args.get? j with
        | none => rw [ha] at heq; cases heq
        | some a =>
          rw [ha] at heq hpl hne
          simp only [Option.map_some'] at heq hpl
          injection hpl with hpl
          rw [if_neg (by simp [hpl])] at heq
          exact hne heq
      · rw [List.get?_eq_none.mpr (Nat.le_of_not_lt hj)] at heq
        cases heq
    · intro h
      exact absurd h hji

theorem placeholder_subst_unique_witness :
    (substPlaceholders ["evince", "%f"] "/tmp/doc.pdf").get? 1 = some "/tmp/doc.pdf" := by
  have h := placeholder_subst_unique ["evince", "%f"] "/tmp/doc.pdf" 1 (by decide) (by decide)
  exact (h.2.2 1).mpr rfl

/-! Helper predicates and lemmas for the registry build. -/

/-- Holds when constructing the `DesktopEntry` raised nothing the
`except FileNotFoundError` clause would let through. -/
def entryNotFatal (x : Except PyExn DesktopEntryData) : Bool :=
  match x with
  | Except.error PyExn.fileNotFound => true
  | Except.error _ => false
  | Except.ok _ => true

/-- Holds when every exception a search path produces (from `os.listdir`
or from a `.desktop` entry) is a `FileNotFoundError`. -/
def dirNotFatal (dir : Except PyExn (List DirEntry)) : Bool :=
  match dir with
  | Except.error e => e == PyExn.fileNotFound
  | Except.ok entries =>
    entries.all fun ent => !splitextIsDesktop ent.filename || entryNotFatal ent.entry

theorem processDirEntries_nonfatal (entries : List DirEntry) (acc : ViewerDict)
    (h : (entries.all fun ent => !splitextIsDesktop ent.filename || entryNotFatal ent.entry)
      = true) :
    (processDirEntries entries acc).2 = none ∨
      (processDirEntries entries acc).2 = some PyExn.fileNotFound := by
  induction entries generalizing acc with
  | nil => exact Or.inl rfl
  | cons e rest ih =>
    rw [List.all_cons, Bool.and_eq_true] at h
    obtain ⟨he, hrest⟩ := h
    unfold processDirEntries
    by_cases hd : splitextIsDesktop e.filename = true
    · rw [if_pos hd]
      rw [hd] at he
      simp only [Bool.not_true, Bool.false_or] at he
      cases hent : e.entry with
      | error exn =>
        rw [hent] at he
        cases exn with
        | fileNotFound => exact Or.inr rfl
        | parsingError => simp [entryNotFatal] at he
        | otherError => simp [entryNotFatal] at he
      | ok d =>
        dsimp only
        by_cases hm : "application/pdf" ∈ d.getMimeTypes ∧ d.getName ≠ "dangerzone"
        · rw [if_pos hm]
          exact ih (dictInsert acc d.getName d.getExec) hrest
        · rw [if_neg hm]
          exact ih acc hrest
    · rw [if_neg hd]
      exact ih acc hrest

theorem processSearchPath_nonfatal (acc : ViewerDict) (dir : Except PyExn (List DirEntry))
    (h : dirNotFatal dir = true) :
    ∃ acc2, processSearchPath acc dir = Except.ok acc2 := by
  cases dir with
  | error e =>
    have he : e = PyExn.fileNotFound := by
      cases e
      · rfl
      · simp [dirNotFatal] at h
      · simp [dirNotFatal] at h
    subst he
    exact ⟨acc, rfl⟩
  | ok entries =>
    have h2 := processDirEntries_nonfatal entries acc (by simpa [dirNotFatal] using h)
    rcases hpe : processDirEntries entries acc with ⟨acc2, osnd⟩
    rw [hpe] at h2
    dsimp only at h2
    unfold processSearchPath
    dsimp only
    rw [hpe]
    rcases h2 with h2 | h2 <;> subst h2
    · exact ⟨acc2, rfl⟩
    · exact ⟨acc2, rfl⟩

theorem find_from_nonfatal :
    ∀ dirs : List (Except PyExn (List DirEntry)), dirs.all dirNotFatal = true →
      ∀ acc, ∃ m, find_pdf_viewers_linux_from dirs acc = Except.ok m := by
  intro dirs
  induction dirs with
  | nil => exact fun _ acc => ⟨acc, rfl⟩
  | cons dir rest ih =>
    intro h acc
    rw [List.all_cons, Bool.and_eq_true] at h
    obtain ⟨acc2, hacc2⟩ := processSearchPath_nonfatal acc dir h.1
    unfold find_pdf_viewers_linux_from
    rw [hacc2]
    exact ih h.2 acc2

/-- C4 (counterexample): one well-named `.desktop` file whose
`DesktopEntry` constructor raises a `ParsingError` (a malformed entry)
makes the whole registry build raise: the `except FileNotFoundError`
clause does not catch it, so malformed entries are not silently skipped
and the build can raise to its caller. -/
theorem registry_malformed_raises_cex :
    splitextIsDesktop "evil.desktop" = true ∧
    find_pdf_viewers_linux [Except.ok [DirEntry.mk "evil.desktop"
        (Except.error PyExn.parsingError)]] =
      Except.error PyExn.parsingError :=
  ⟨rfl, rfl⟩

/-- C4 (amended): the registry build raises no exception as long as every
exception met along the way — from `os.listdir` on a missing directory or
from constructing a `DesktopEntry` on a vanished file — is a
`FileNotFoundError`: those are silently skipped and the build returns a
definite mapping. The `ParsingError` of a malformed entry (or any other
exception class) propagates to the caller instead of being skipped. -/
theorem registry_build_nonfatal_ok (dirs : List (Except PyExn (List DirEntry)))
    (h : dirs.all dirNotFatal = true) :
    ∃ m, find_pdf_viewers_linux dirs = Except.ok m :=
  find_from_nonfatal dirs h []

theorem registry_build_nonfatal_ok_witness :
    ([Except.error PyExn.fileNotFound,
      Except.ok [DirEntry.mk "a.desktop"
          (Except.ok ⟨"Evince", ["application/pdf"], "evince %f"⟩),
        DirEntry.mk "b.desktop" (Except.error PyExn.fileNotFound)]].all dirNotFatal = true) ∧
    ∃ m, find_pdf_viewers_linux
      [Except.error PyExn.fileNotFound,
        Except.ok [DirEntry.mk "a.desktop"
            (Except.ok ⟨"Evince", ["application/pdf"], "evince %f"⟩),
          DirEntry.mk "b.desktop" (Except.error PyExn.fileNotFound)]] = Except.ok m :=
  ⟨by decide, registry_build_nonfatal_ok _ (by decide)⟩

/-- The invariant of a registry snapshot: the display-name keys are
pairwise distinct and none equals the display name of the host application. -/
def goodDict (host : String) (d : ViewerDict) : Prop :=
  (d.map Prod.fst).Nodup ∧ ∀ p ∈ d, p.1 ≠ host

theorem goodDict_nil (host : String) : goodDict host [] :=
  ⟨List.nodup_nil, fun _ hp => absurd hp (List.not_mem_nil _)⟩

theorem dictInsert_good (host : String) (d : ViewerDict) (k v : String)
    (hd : goodDict host d) (hk : k ≠ host) : goodDict host (dictInsert d k v) := by
  obtain ⟨h1, h2⟩ := hd
  unfold dictInsert
  by_cases hmem : (d.any fun p => p.1 == k) = true
  · rw [if_pos hmem]
    constructor
    · have hkeys : ((d.map fun p => if p.1 == k then (k, v) else p).map Prod.fst) =
          d.map Prod.fst := by
        rw [List.map_map]
        apply List.map_congr_left
        intro p _
        by_cases hpk : (p.1 == k) = true
        · simp only [Function.comp_apply, if_pos hpk]
          exact (eq_of_beq hpk).symm
        · simp only [Function.comp_apply, if_neg hpk]
      rw [hkeys]
      exact h1
    · intro p hp
      rw [List.mem_map] at hp
      obtain ⟨q, hq, rfl⟩ := hp
      by_cases hpk : (q.1 == k) = true
      · rw [if_pos hpk]
        exact hk
      · rw [if_neg hpk]
        exact h2 q hq
  · rw [if_neg hmem]
    constructor
    · rw [List.map_append]
      refine h1.append (List.nodup_singleton k) ?_
      intro a ha hb
      rw [List.mem_map] at ha
      obtain ⟨q, hq, rfl⟩ := ha
      simp only [List.map_cons, List.map_nil, List.mem_singleton] at hb
      apply hmem
      rw [List.any_eq_true]
      exact ⟨q, hq, by rw [hb]; exact beq_self_eq_true k⟩
    · intro p hp
      rw [List.mem_append] at hp
      rcases hp with hp | hp
      · exact h2 p hp
      · rw [List.mem_singleton] at hp
        subst hp
        exact hk

theorem processDirEntries_good (entries : List DirEntry) (acc : ViewerDict)
    (h : goodDict "dangerzone" acc) :
    goodDict "dangerzone" (processDirEntries entries acc).1 := by
  induction entries generalizing acc with
  | nil => exact h
  | cons e rest ih =>
    unfold processDirEntries
    by_cases hd : splitextIsDesktop e.filename = true
    · rw [if_pos hd]
      cases hent : e.entry with
      | error exn => exact h
      | ok d =>
        dsimp only
        by_cases hm : "application/pdf" ∈ d.getMimeTypes ∧ d.getName ≠ "dangerzone"
        · rw [if_pos hm]
          exact ih _ (dictInsert_good _ _ _ _ h hm.2)
        · rw [if_neg hm]
          exact ih _ h
    · rw [if_neg hd]
      exact ih _ h

theorem processSearchPath_good (acc : ViewerDict) (dir : Except PyExn (List DirEntry))
    (acc2 : ViewerDict) (h : goodDict "dangerzone" acc)
    (heq : processSearchPath acc dir = Except.ok acc2) :
    goodDict "dangerzone" acc2 := by
  cases dir with
  | error e =>
    cases e with
    | fileNotFound =>
      injection heq with heq
      subst heq
      exact h
    | parsingError => exact absurd heq (by simp [processSearchPath])
    | otherError => exact absurd heq (by simp [processSearchPath])
  | ok entries =>
    have hg := processDirEntries_good entries acc h
    unfold processSearchPath at heq
    dsimp only at heq
    rcases hpe : processDirEntries entries acc with ⟨accp, osnd⟩
    rw [hpe] at heq hg
    dsimp only at hg
    cases osnd with
    | none =>
      injection heq with heq
      subst heq
      exact hg
    | some e =>
      cases e with
      | fileNotFound =>
        injection heq with heq
        subst heq
        exact hg
      | parsingError => exact absurd heq (by simp)
      | otherError => exact absurd heq (by simp)

theorem find_from_good :
    ∀ dirs : List (Except PyExn (List DirEntry)), ∀ acc : ViewerDict,
      goodDict "dangerzone" acc → ∀ m : ViewerDict,
        find_pdf_viewers_linux_from dirs acc = Except.ok m → goodDict "dangerzone" m := by
  intro dirs
  induction dirs with
  | nil =>
    intro acc h m hm
    injection hm with hm
    subst hm
    exact h
  | cons dir rest ih =>
    intro acc h m hm
    unfold find_pdf_viewers_linux_from at hm
    cases hps : processSearchPath acc dir with
    | error e =>
      rw [hps] at hm
      exact absurd hm (by simp)
    | ok acc2 =>
      rw [hps] at hm
      exact ih acc2 (processSearchPath_good acc dir acc2 h hps) m hm

theorem find_pdf_viewers_darwin_good (cands : List DarwinCandidate) :
    goodDict "Dangerzone" (find_pdf_viewers_darwin cands) := by
  unfold find_pdf_viewers_darwin
  have hstep : ∀ cs : List DarwinCandidate, ∀ acc : ViewerDict, goodDict "Dangerzone" acc →
      goodDict "Dangerzone" (cs.foldl
        (fun acc c =>
          match c.app_path with
          | none => acc
          | some _ =>
            if c.info_plist_exists then
              match c.cfBundleName with
              | some name =>
                if name ≠ "" ∧ name ≠ "Dangerzone" then
                  dictInsert acc name c.bundle_identifier
                else
                  acc
              | none => acc
            else
              acc)
        acc) := by
    intro cs
    induction cs with
    | nil => exact fun acc h => h
    | cons c rest ih =>
      intro acc h
      rw [List.foldl_cons]
      apply ih
      cases c.app_path with
      | none => exact h
      | some _ =>
        dsimp only
        by_cases hpl : c.info_plist_exists = true
        · rw [if_pos hpl]
          cases c.cfBundleName with
          | none => exact h
          | some name =>
            dsimp only
            by_cases hname : name ≠ "" ∧ name ≠ "Dangerzone"
            · rw [if_pos hname]
              exact dictInsert_good _ _ _ _ h hname.2
            · rw [if_neg hname]
              exact h
        · rw [if_neg hpl]
          exact h
  exact hstep cands [] (goodDict_nil _)

/-- C5: every registry build has pairwise-distinct display-name keys, and
no key equals the own display name of the host application — `"dangerzone"` in
the Linux branch, `"Dangerzone"` in the Darwin branch. -/
theorem registry_keys_unique (dirs : List (Except PyExn (List DirEntry)))
    (cands : List DarwinCandidate) (m : ViewerDict)
    (hm : find_pdf_viewers_linux dirs = Except.ok m) :
    ((m.map Prod.fst).Nodup ∧ ∀ p ∈ m, p.1 ≠ "dangerzone") ∧
    (((find_pdf_viewers_darwin cands).map Prod.fst).Nodup ∧
      ∀ p ∈ find_pdf_viewers_darwin cands, p.1 ≠ "Dangerzone") :=
  ⟨find_from_good dirs [] (goodDict_nil _) m hm, find_pdf_viewers_darwin_good cands⟩

theorem registry_keys_unique_witness :
    (([("Evince", "evince %f")].map Prod.fst).Nodup ∧
      ∀ p ∈ [("Evince", "evince %f")], p.1 ≠ "dangerzone") ∧
    (((find_pdf_viewers_darwin
        [⟨"com.apple.Preview", some "/Applications/Preview.app", true, some "Preview"⟩]).map
          Prod.fst).Nodup ∧
      ∀ p ∈ find_pdf_viewers_darwin
          [⟨"com.apple.Preview", some "/Applications/Preview.app", true, some "Preview"⟩],
        p.1 ≠ "Dangerzone") :=
  registry_keys_unique
    [Except.ok [DirEntry.mk "a.desktop"
        (Except.ok ⟨"Evince", ["application/pdf"], "evince %f"⟩)]]
    [⟨"com.apple.Preview", some "/Applications/Preview.app", true, some "Preview"⟩]
    [("Evince", "evince %f")] rfl
